import Mathlib

/-!
Verification of the Kiyukii-Bot command router and handlers
(src/musicbot/bot.py) against its natural-language specification.

The Python source is shallowly embedded: pure fragments become Lean
functions; the stateful dispatch loop in `MusicBot.on_message` becomes an
explicit outcome value; `random.randint` becomes an abstract oracle
parameter; Python exceptions become `Except` results.
-/

namespace KiyukiiBot

/-- Embeds the `Response` class (bot.py lines 57-61): a handler reply with
display text, a mention flag and an auto-delete delay. -/
structure Response where
  content : String
  reply : Bool
  delete_after : Nat
deriving DecidableEq, Repr

/-! ## Python string primitives used by the source -/

/-- Value of a decimal digit character. -/
def decDigitVal (c : Char) : Option Nat :=
  if c.isDigit then some (c.toNat - 48) else none

/-- Decimal value of a nonempty all-digit character list; `none` otherwise. -/
def digitsToNat : List Char → Option Nat
  | [] => none
  | cs => cs.foldl (fun acc c => acc.bind fun n => (decDigitVal c).map fun d => n * 10 + d) (some 0)

/-- Character-list prefix test. -/
def listIsPrefixOf : List Char → List Char → Bool
  | [], _ => true
  | _ :: _, [] => false
  | a :: as, b :: bs => a = b && listIsPrefixOf as bs

/-- Character-list infix test: `pat` occurs contiguously in the list. -/
def listIsInfixOf (pat : List Char) : List Char → Bool
  | [] => listIsPrefixOf pat []
  | c :: rest => listIsPrefixOf pat (c :: rest) || listIsInfixOf pat rest

/-- Models Python `str.strip()`: drop whitespace from both ends.
(Implemented over the character list so it evaluates by kernel
reduction; the built-in `String.trim` does not.) -/
def pyStrip (s : String) : String :=
  ⟨((s.toList.dropWhile Char.isWhitespace).reverse.dropWhile Char.isWhitespace).reverse⟩

/-- Models Python `str.startswith`. -/
def pyStartsWith (s pre : String) : Bool :=
  listIsPrefixOf pre.toList s.toList

/-- Models Python `str.lower` (ASCII range suffices here). -/
def pyLower (s : String) : String :=
  ⟨s.toList.map Char.toLower⟩

/-- Models Python slicing `s[n:]` (characterwise drop). -/
def pyDrop (s : String) (n : Nat) : String :=
  ⟨s.toList.drop n⟩

/-- Splits at every newline, keeping empty pieces
(Python `s.split('\n')`). -/
def splitLinesAux : List Char → List Char → List String
  | [], acc => [⟨acc.reverse⟩]
  | c :: rest, acc =>
    if c = '\n' then ⟨acc.reverse⟩ :: splitLinesAux rest []
    else splitLinesAux rest (c :: acc)

/-- Models Python `s.split('\n')`. -/
def splitLines (s : String) : List String :=
  splitLinesAux s.toList []

/-- Models Python `sep.join(lines)`. -/
def joinWith (sep : String) : List String → String
  | [] => ""
  | [s] => s
  | s :: rest => s ++ sep ++ joinWith sep rest

/-- Removes `pat` from the front of a list, if present. -/
def stripPrefixFrom : List Char → List Char → Option (List Char)
  | [], s => some s
  | _ :: _, [] => none
  | p :: ps, c :: cs => if p = c then stripPrefixFrom ps cs else none

/-- Fuelled worker for `pyReplace`; fuel is the input length, which always
suffices because every step consumes at least one character (the pattern
is nonempty at every use). -/
def replaceFuel (pat rep : List Char) : Nat → List Char → List Char
  | _, [] => []
  | 0, s => s
  | n + 1, c :: rest =>
    if pat.isEmpty then c :: rest
    else
      match stripPrefixFrom pat (c :: rest) with
      | some remainder => rep ++ replaceFuel pat rep n remainder
      | none => c :: replaceFuel pat rep n rest

/-- Models Python `s.replace(pat, rep)` for nonempty `pat`: leftmost,
non-overlapping occurrences. -/
def pyReplace (s pat rep : String) : String :=
  ⟨replaceFuel pat.toList rep.toList s.toList.length s.toList⟩

/-- Models Python `int(s)` on a string: strips surrounding whitespace, allows
one optional sign, then requires a nonempty digit run; raises `ValueError`
(here: `none`) otherwise. -/
def pyInt (s : String) : Option Int :=
  match (pyStrip s).toList with
  | '-' :: rest => (digitsToNat rest).map fun n => -(n : Int)
  | '+' :: rest => (digitsToNat rest).map fun n => (n : Int)
  | cs => (digitsToNat cs).map fun n => (n : Int)

/-- Models Python `str.isdigit` (ASCII digits): nonempty and all digits. -/
def pyIsDigit (s : String) : Bool :=
  !s.toList.isEmpty && s.toList.all Char.isDigit

/-- Whitespace tokenizer worker: accumulates the current token. -/
def tokensAux : List Char → List Char → List String
  | [], acc => if acc.isEmpty then [] else [⟨acc.reverse⟩]
  | c :: rest, acc =>
    if c.isWhitespace then
      if acc.isEmpty then tokensAux rest []
      else ⟨acc.reverse⟩ :: tokensAux rest []
    else tokensAux rest (c :: acc)

/-- Models Python `str.split()` with no separator: split on whitespace
runs, discarding empty pieces. -/
def pySplit (s : String) : List String :=
  tokensAux s.toList []

/-- Models Python `s.split(' ', 1)`: the part before the first space, and
(when a space exists) everything after it. -/
def pySplitOnce (s : String) : String × Option String :=
  match s.toList.span (· ≠ ' ') with
  | (before, []) => (⟨before⟩, none)
  | (before, _ :: rest) => (⟨before⟩, some ⟨rest⟩)

/-! ## cmd_roll (bot.py lines 553-579)

`random.randint(a, b)` is modelled by an oracle `rng : Int → Int → Int`;
the faithfulness hypothesis `a ≤ rng a b ≤ b` mirrors its documented
contract. -/

/-- Embeds `MusicBot.cmd_roll` (bot.py lines 553-579) applied to the
already-stripped remainder of the message after the `roll` keyword.
`int(sides)` failing with `ValueError` is the `none` branch. -/
def cmd_roll (query : String) (rng : Int → Int → Int) : Response :=
  match pyInt query with
  | some sides =>
    if sides < 1 then
      { content := "I don't know what you wanted to roll. I rolled a 6-sided die instead\nI rolled a **" ++ toString (rng 1 6) ++ "**"
        reply := false, delete_after := 20 }
    else if sides > 1000 then
      { content := "Too many sides. I rolled a 1000-sided die instead\nI rolled a **" ++ toString (rng 1 1000) ++ "**"
        reply := false, delete_after := 20 }
    else
      { content := "I rolled a **" ++ toString (rng 1 sides) ++ "**"
        reply := false, delete_after := 20 }
  | none =>
    { content := "I don't know what you wanted to roll. I rolled a 6-sided die instead\nI rolled a **" ++ toString (rng 1 6) ++ "**"
      reply := false, delete_after := 20 }

/-! ## cmd_xkcd (bot.py lines 307-333) -/

/-- What the body of `cmd_xkcd` does before any HTTP fetch: either fetch a
URL (and then build the comic reply) or return a `Response` directly. -/
inductive XkcdStep where
  | fetch (url : String)
  | reply (r : Response)
deriving DecidableEq, Repr

/-- Embeds `MusicBot.cmd_xkcd` (bot.py lines 307-333) applied to the
already-stripped remainder of the message after the `xkcd` keyword; `i` is
the oracle value of `random.randint(1, 1662)`.  The branch structure
mirrors the source `if/elif` chain exactly: when the query is nonempty and
not an in-range digit string, the guard `int(query) <= 0 or int(query) >= 1663`
evaluates `int(query)` first, so a non-numeric query raises `ValueError`
(modelled as `Except.error "ValueError"`) before the later
`not query.isdigit()` branch can run. -/
def cmd_xkcd (query : String) (i : Nat) : Except String XkcdStep :=
  if query.length = 0 then
    .ok (.fetch ("https://xkcd.com/" ++ toString i ++ "/"))
  else if pyIsDigit query ∧ 1 ≤ (pyInt query).getD 0 ∧ (pyInt query).getD 0 ≤ 1662 then
    .ok (.fetch ("https://xkcd.com/" ++ query ++ "/"))
  else
    match pyInt query with
    | none => .error "ValueError"
    | some n =>
      if n ≤ 0 ∨ 1663 ≤ n then
        .ok (.reply { content := "It has to be between 1 and 1662!", reply := false, delete_after := 20 })
      else if ¬ pyIsDigit query then
        .ok (.reply { content := "You have to put a number!", reply := false, delete_after := 20 })
      else
        -- source falls off the if/elif chain with `url` unbound: NameError
        .error "NameError"

/-! ## cmd_timer (bot.py lines 349-400) -/

/-- What `cmd_timer` commits to after parsing its arguments: schedule the
timer (with an optional reminder text) or reply with the format error. -/
inductive TimerOutcome where
  | scheduled (seconds : Int) (reminder : Option String)
  | badFormat (r : Response)
deriving DecidableEq, Repr

/-- Embeds the argument handling of `MusicBot.cmd_timer` (bot.py lines
349-400): `query.split(' ', 1)`, then `int` on the first piece;
`ValueError` is caught and answered with the format reply; the
presence/absence of a second piece (`IndexError`) selects the reminder
variant. -/
def cmd_timer ( command_prefix : String) (query : String) : TimerOutcome :=
  let qs := pySplitOnce query
  match pyInt qs.1 with
  | some seconds => .scheduled seconds qs.2
  | none =>
    .badFormat
      { content := "That's not what I expected. The format is `" ++ command_prefix ++ "timer [seconds] [optional reminder message].`"
        reply := false, delete_after := 20 }

/-! ## cmd_clean argument check (bot.py lines 655-659) -/

/-- Embeds the numeric check at the top of `MusicBot.cmd_clean` (bot.py
lines 655-659): `float(search_range)` as a lazy check then
`min(int(search_range), 1000)`, with a bare `except` returning the
"enter a number" reply.  `int(s)` succeeds exactly when `pyInt s` does,
and every string accepted by `int` is accepted by `float`, so the `try`
block succeeds iff `pyInt` does. -/
def cmd_clean_range (search_range : String) : Except Response Int :=
  match pyInt search_range with
  | some n => .ok (min n 1000)
  | none =>
    .error
      { content := "enter a number.  NUMBER.  That means digits.  `15`.  Etc."
        reply := true, delete_after := 8 }

/-! ## Router data model (bot.py lines 850-1007) -/

/-- The ambient bot configuration fields read by `on_message`
(musicbot/config.py is an external key/value parser; only the fields the
router reads are modelled). -/
structure Config where
  command_prefix : String
  owner_id : String
  bound_channels : List String
  delete_messages : Bool
  delete_invoking : Bool
  debug_mode : Bool
deriving DecidableEq, Repr

/-- The per-author permission set produced by `permissions.for_user`
(bot.py line 898): group label, optional command whitelist and blacklist.
Python set truthiness (nonempty = true) becomes list nonemptiness. -/
structure UserPermissions where
  name : String
  command_whitelist : List String
  command_blacklist : List String
deriving DecidableEq, Repr

/-- The fields of an inbound `discord.Message` read by `on_message`.
`author == self.user` in discord.py compares user ids, so the bot's own
user id is carried in `BotCtx`. -/
structure MessageIn where
  author_id : String
  author_bot : Bool
  content : String
  channel_id : String
  channel_is_private : Bool
deriving DecidableEq, Repr

/-- The bot identity and configuration visible to `on_message`. -/
structure BotCtx where
  config : Config
  user_id : String
deriving DecidableEq, Repr

/-- The fixed user id whose mention triggers the Cleverbot path
(bot.py line 862). -/
def cleverbotMention : String := "<@193778484869332993>"

/-- Models Python `s.find(pat) != -1`: substring containment. -/
def pyContains (s pat : String) : Bool :=
  listIsInfixOf pat.toList s.toList

/-- Outcome of the precondition filters at the top of `on_message`
(bot.py lines 850-896) before per-handler dispatch. -/
inductive PreOutcome where
  | ignoredBotAuthor
  | nonCommand (cleverbotReplied : Bool)
  | ignoredSelf
  | notBoundChannel
  | proceed (command : String) (args : List String)
deriving DecidableEq, Repr

/-- Embeds the precondition filters of `MusicBot.on_message` (bot.py lines
850-896), in source order: (1) `message.author.bot` — any bot-flagged
author, not just this bot — exits silently; (2) a message that does not
start with the command prefix goes to the non-command path, which replies
via Cleverbot iff the text contains the fixed mention token; (3)
`message.author == self.user` exits with a log line; (4) a configured
channel binding excludes unbound channels unless the channel is private;
otherwise the keyword is extracted (prefix stripped, lowercased,
stripped) and the remaining whitespace tokens become the argument list. -/
def preDispatch (bot : BotCtx) (m : MessageIn) : PreOutcome :=
  if m.author_bot then .ignoredBotAuthor
  else
    let message_content := pyStrip m.content
    if ¬ pyStartsWith message_content (Config.command_prefix bot.config) then
      .nonCommand (pyContains message_content cleverbotMention)
    else if m.author_id = bot.user_id then .ignoredSelf
    else if bot.config.bound_channels ≠ [] ∧ m.channel_id ∉ bot.config.bound_channels ∧ ¬ m.channel_is_private then
      .notBoundChannel
    else
      let tokens := pySplit message_content
      let command := pyStrip (pyLower (pyDrop (tokens.headD "") (Config.command_prefix bot.config).length))
      .proceed command tokens.tail

/-! ## Parameter binding (bot.py lines 900-946) -/

/-- One declared handler parameter: its name and, when present, the
display string of its declared default (`inspect.Parameter.empty`
becomes `none`). -/
structure Param where
  name : String
  default : Option String
deriving DecidableEq, Repr

/-- The recognized context parameter names popped by name before the
positional loop (bot.py lines 907-932). -/
def ctxParamNames : List String :=
  ["message", "channel", "author", "server", "player", "permissions",
   "user_mentions", "channel_mentions", "leftover_args"]

/-- A handler's introspected signature (minus `self`), in declaration
order, as produced by `inspect.signature` (bot.py lines 900-901). -/
structure HandlerSig where
  params : List Param
deriving DecidableEq, Repr

/-- The parameters left in `params` after the context names are popped:
the positional user-supplied parameters, in declaration order. -/
def HandlerSig.userParams (sig : HandlerSig) : List Param :=
  sig.params.filter (fun p => ¬ ctxParamNames.contains p.name)

/-- Whether the handler declares `leftover_args` (bot.py line 931). -/
def HandlerSig.hasLeftover (sig : HandlerSig) : Bool :=
  sig.params.any (fun p => p.name = "leftover_args")

/-- Embeds the positional-binding loop (bot.py lines 934-946).  The loop
walks the remaining declared parameters in order; while argument tokens
remain, `args.pop(0)` binds the next token to the current parameter;
once tokens are exhausted, parameters with a declared default are
dropped (the handler's own default applies) and parameters without one
stay in `params`, which later triggers the usage message.  Returns
(bound name/token pairs, tokens left in `args`, parameters left in
`params`). -/
def bindLoop : List Param → List String → List (String × String) × List String × List Param
  | [], args => ([], args, [])
  | p :: ps, [] =>
    let rest := bindLoop ps []
    if (p.default).isSome then rest
    else (rest.1, rest.2.1, p :: rest.2.2)
  | p :: ps, a :: as =>
    let rest := bindLoop ps as
    ((p.name, a) :: rest.1, rest.2.1, rest.2.2)

/-! ## Per-handler dispatch (bot.py lines 891-976) -/

/-- The keyword arguments assembled for the handler call.  The recognized
context bindings carry no information relevant to the claims; the
positional bindings and `leftover_args` are kept.  In the source,
`handler_kwargs['leftover_args'] = args` aliases the same mutable list
that the positional loop pops from, so the value observed at invocation
time is the post-loop remainder; the embedding materialises that final
value. -/
structure Kwargs where
  pos : List (String × String)
  leftover : Option (List String)
deriving DecidableEq, Repr

/-- Outcome of dispatching one resolved command. -/
inductive Outcome where
  | privateRefusal
  | permissionsError (msg : String) (expire : Nat)
  | usageMessage (text : String) (expire : Nat)
  | invoked (kw : Kwargs)
deriving DecidableEq, Repr

/-- The `doc_key` entry for one parameter (bot.py line 936):
`[name=default]` when a default is declared, the bare name otherwise. -/
def docKey (p : Param) : String :=
  match p.default with
  | some d => "[" ++ p.name ++ "=" ++ d ++ "]"
  | none => p.name

/-- Usage-text postprocessing (bot.py lines 968-971): strip every line,
rejoin with newlines, then substitute the `{command_prefix}` placeholder
(Python `str.format(command_prefix=...)`). -/
def formatUsage (docs command_prefix : String) : String :=
  pyReplace (joinWith "\n" ((splitLines docs).map pyStrip)) "{command_prefix}" command_prefix

/-- The generated usage text for a handler without a docstring
(bot.py lines 962-966). -/
def fallbackDocs ( command_prefix command : String) (args_expected : List String) : String :=
  "Usage: " ++ command_prefix ++ command ++ " " ++ joinWith " " args_expected

/-- Embeds `MusicBot.on_message` from the private-message restriction to
the handler call (bot.py lines 891-976) for one resolved handler, given
its introspected signature `sig` and docstring `doc`.  In source order:
private-channel refusal (owner + `joinserver` exempt); context-parameter
pops; the positional-binding loop; the owner-exempt whitelist then
blacklist gate (each raising `PermissionsError` with the group name,
`expire_in=20`); the leftover-unbound-parameter usage message
(`expire_in=60`); finally the handler invocation. -/
def dispatchResolved (cfg : Config) (perms : UserPermissions) (sig : HandlerSig)
    (doc : Option String) (command : String) (args : List String)
    (author_id : String) (channel_is_private : Bool) : Outcome :=
  if channel_is_private ∧ ¬ (author_id = cfg.owner_id ∧ command = "joinserver") then
    .privateRefusal
  else
    let user_params := sig.userParams
    let bound := bindLoop user_params args
    let args_expected := user_params.map docKey
    if author_id ≠ cfg.owner_id ∧ perms.command_whitelist ≠ [] ∧ command ∉ perms.command_whitelist then
      .permissionsError ("This command is not enabled for your group (" ++ perms.name ++ ").") 20
    else if author_id ≠ cfg.owner_id ∧ perms.command_blacklist ≠ [] ∧ command ∈ perms.command_blacklist then
      .permissionsError ("This command is disabled for your group (" ++ perms.name ++ ").") 20
    else if bound.2.2 ≠ [] then
      let docs := doc.getD (fallbackDocs (Config.command_prefix cfg) command args_expected)
      .usageMessage ("```\n" ++ formatUsage docs (Config.command_prefix cfg) ++ "\n```") 60
    else
      .invoked { pos := bound.1
                 leftover := if sig.hasLeftover then some bound.2.1 else none }

/-! ## safe_send_message and reply delivery (bot.py lines 100-127, 976-986) -/

/-- A handle to a sent or received platform message. -/
structure MsgRef where
  id : Nat
deriving DecidableEq, Repr

/-- Result of the underlying `send_message` call: the sent message, or the
`discord.Forbidden` / `discord.NotFound` failure. -/
inductive SendAttempt where
  | ok (m : MsgRef)
  | forbidden
  | notFound
deriving DecidableEq, Repr

/-- Embeds `MusicBot.safe_send_message` (bot.py lines 108-127): on a
successful send with nonzero `expire_in`, the sent message is scheduled
for deletion after `expire_in` (via `_wait_delete_msg`); independently,
whenever `also_delete` is a message, it is scheduled for deletion after
the same `expire_in` — with no guard on `expire_in` being nonzero.  Send
failures are swallowed (warning printed) and return no handle.  Returns
the returned message handle and the list of (message, delay) deletion
tasks scheduled. -/
def safe_send_message (attempt : SendAttempt) (expire_in : Nat) (also_delete : Option MsgRef) :
    Option MsgRef × List (MsgRef × Nat) :=
  match attempt with
  | .ok m =>
    (some m,
      (if expire_in ≠ 0 then [(m, expire_in)] else []) ++
      (match also_delete with
       | some d => [(d, expire_in)]
       | none => []))
  | .forbidden => (none, [])
  | .notFound => (none, [])

/-- Embeds the reply-delivery step of `on_message` (bot.py lines 976-986):
the handler's `Response` is rendered (mention prefix when `reply` is
set) and sent with `expire_in = delete_after` when the global
delete-messages setting is on (0 otherwise) and `also_delete = message`
when the global delete-invoking setting is on.  Returns the rendered
content, the sent handle and the scheduled deletions. -/
def sendResponse (cfg : Config) (invoking : MsgRef) (author_mention : String)
    (resp : Response) (attempt : SendAttempt) :
    String × Option MsgRef × List (MsgRef × Nat) :=
  let content := if resp.reply then author_mention ++ ", " ++ resp.content else resp.content
  let sent := safe_send_message attempt
    (if cfg.delete_messages then resp.delete_after else 0)
    (if cfg.delete_invoking then some invoking else none)
  (content, sent.1, sent.2)

/-! ## textwrap.dedent, the command table and cmd_help (bot.py lines 610-645) -/

/-- A line consisting solely of spaces/tabs (Python textwrap's
`_whitespace_only_re`). -/
def isWSOnlyLine (l : String) : Bool :=
  !l.toList.isEmpty && l.toList.all (fun c => c = ' ' ∨ c = '\t')

/-- Longest common prefix of two character lists. -/
def lcpChars : List Char → List Char → List Char
  | x :: xs, y :: ys => if x = y then x :: lcpChars xs ys else []
  | _, _ => []

/-- The leading space/tab run of a line. -/
def leadingWS (l : String) : String :=
  ⟨l.toList.takeWhile (fun c => c = ' ' ∨ c = '\t')⟩

/-- Models Python `textwrap.dedent`: whitespace-only lines are first
normalised to empty lines; the margin is the longest common leading
space/tab run of the remaining nonempty lines; the margin is then
removed from every line that starts with it. -/
def dedent (text : String) : String :=
  let lines := (splitLines text).map (fun l => if isWSOnlyLine l then "" else l)
  let indents := (lines.filter (· ≠ "")).map (fun l => (leadingWS l).toList)
  let margin : String :=
    match indents with
    | [] => ""
    | i :: is => ⟨is.foldl lcpChars i⟩
  let out := lines.map (fun l => if pyStartsWith l margin then pyDrop l margin.length else l)
  joinWith "\n" out

/-- The sorted list of `cmd_`-prefixed attributes of `MusicBot`, as
`dir(self)` yields them (bot.py lines 281-848). -/
def commandAtts : List String :=
  ["cmd_8ball", "cmd_cat", "cmd_choice", "cmd_clean", "cmd_coinflip",
   "cmd_dot", "cmd_game", "cmd_help", "cmd_honk", "cmd_kiyu",
   "cmd_listids", "cmd_penguin", "cmd_perms", "cmd_restart", "cmd_roll",
   "cmd_say", "cmd_setavatar", "cmd_setname", "cmd_setnick",
   "cmd_shutdown", "cmd_timer", "cmd_tsun", "cmd_urban", "cmd_xkcd"]

/-- The raw `__doc__` of each command handler, byte-for-byte from the
source (bot.py); `cmd_restart` and `cmd_shutdown` (lines 842-848) have
no docstring, so their `__doc__` is `None`. -/
def cmdDoc : String → Option String
  | "cmd_urban" => some "\n        Usage:\n            {command_prefix}urban (phrase)\n\n        Finds a phrase in urban dictionary\n        "
  | "cmd_xkcd" => some "\n        Usage:\n            {command_prefix}xkcd\n\n        Queries a random XKCD comic.\n        Do {command_prefix}xkcd <number from 1-1662> to pick a specific comic.\n        "
  | "cmd_penguin" => some "\n        Usage:\n            {command_prefix}penguin\n\n        Sends Penguins\n        "
  | "cmd_timer" => some "\n        Usage:\n            {command_prefix}timer [seconds] [reminder]\n\n        Sets a timer for a user with the option of setting a reminder text.\n        "
  | "cmd_8ball" => some "\n        Usage:\n            {command_prefix}8ball\n\n        Ask Ainnie a yes or no question\n        "
  | "cmd_dot" => some "\n        Usage:\n            {command_prefix}dot\n\n        Makes Ainnie-Bot send a dot\n        "
  | "cmd_tsun" => some "\n        Usage:\n            {command_prefix}tsun\n\n        Makes Ainnie-Bot be tsundere\n        "
  | "cmd_kiyu" => some "\n        Usage:\n            {command_prefix}kiyu\n\n        Kiyu pictures!\n        "
  | "cmd_honk" => some "\n        Usage:\n            {command_prefix}honk\n\n        Makes Ainnie-Bot send a honk command\n        "
  | "cmd_cat" => some "\n        Usage:\n            {command_prefix}cat\n\n        Makes Ainnie-Bot send a cat pictures\n        "
  | "cmd_choice" => some "\n        Usage:\n            {command_prefix}choice choice1;choice2;choice3\n\n        Makes Ainnie-Bot choose one of the choices\n        "
  | "cmd_coinflip" => some "\n        Usage:\n            {command_prefix}coinflip\n\n        Makes Ainnie-Bot flip a coin\n        "
  | "cmd_roll" => some "\n        Usage:\n            {command_prefix}roll #\n\n        Makes Ainnie-Bot roll a #-sided die (defaults to 6 if no number given)\n        "
  | "cmd_say" => some "\n        Usage:\n            {command_prefix}say (message)\n\n        Makes Ainnie-Bot say something\n        "
  | "cmd_game" => some "\n        Usage:\n            {command_prefix}game (message)\n\n        Makes Ainnie-Bot play a game\n        Ainnie-bot removes her game if there is no message specified\n        "
  | "cmd_help" => some "\n        Usage:\n            {command_prefix}help [command]\n\n        Prints a help message.\n        If a command is specified, it prints a help message for that command.\n        Otherwise, it lists the available commands.\n        "
  | "cmd_clean" => some "\n        Usage:\n            {command_prefix}clean [range]\n\n        Removes up to [range] messages the bot has posted in chat. Default: 50, Max: 1000\n        "
  | "cmd_listids" => some "\n        Usage:\n            {command_prefix}listids [categories]\n            \n        Lists the ids for various things.  Categories are:\n        all, users, roles, channels\n        "
  | "cmd_perms" => some "\n        Usage:\n            {command_prefix}perms\n\n        Sends the user a list of their permissions.\n        "
  | "cmd_setname" => some "\n        Usage:\n            {command_prefix}setname name\n            \n        Changes the bot's username.\n        Note: This operation is limited by discord to twice per hour.\n        "
  | "cmd_setnick" => some "\n        Usage:\n            {command_prefix}setnick nick\n            \n        Changes the bot's nickname.\n        "
  | "cmd_setavatar" => some "\n        Usage:\n            {command_prefix}setavatar [url]\n            \n        Changes the bot's avatar.\n        Attaching a file and leaving the url parameter blank also works.\n        "
  | _ => none

/-- The keyword list built by the no-argument branch of `cmd_help`
(bot.py lines 637-640): every `cmd_`-prefixed attribute except
`cmd_help` itself, with the convention prefix replaced by the command
prefix and the name lowercased. -/
def helpCommands ( command_prefix : String) : List String :=
  (commandAtts.filter (· ≠ "cmd_help")).map
    (fun att => command_prefix ++ pyLower (pyReplace att "cmd_" ""))

/-- Python truthiness of the `command` argument (`if command:`):
`None` and the empty string are falsy. -/
def pyTruthyStr : Option String → Bool
  | none => false
  | some s => !s.toList.isEmpty

/-- Embeds `MusicBot.cmd_help` (bot.py lines 610-645).  With a truthy
argument it looks up `cmd_<command>`; a hit returns the dedented
docstring wrapped in a code block (`delete_after=60`) — note the
`command_prefix` keyword passed to `format` is unused, so the
placeholder is left verbatim — while a handler without a docstring
makes `dedent(None)` raise (`AttributeError`), and a miss returns
"No such command" (`delete_after=10`).  With no argument it returns the
keyword enumeration reply (`reply=True`, `delete_after=60`). -/
def cmd_help ( command_prefix : String) (command : Option String) : Except String Response :=
  if pyTruthyStr command then
    let c := command.getD ""
    if ("cmd_" ++ c) ∈ commandAtts then
      match cmdDoc ("cmd_" ++ c) with
      | some d => .ok { content := "```\n" ++ dedent d ++ "```", reply := false, delete_after := 60 }
      | none => .error "AttributeError"
    else
      .ok { content := "No such command", reply := false, delete_after := 10 }
  else
    .ok { content := "my commands are\n```" ++ joinWith ", " (helpCommands command_prefix) ++ "\n\n@me to talk to me!```"
          reply := true, delete_after := 60 }


/-! ## Properties of the binding loop -/

/-- The name/token pairs bound by the loop are the positional zip of the
declared parameter names with the argument tokens. -/
theorem bindLoop_bound (ps : List Param) (args : List String) :
    (bindLoop ps args).1 = List.zip (ps.map Param.name) args := by
  induction ps generalizing args with
  | nil => simp [bindLoop]
  | cons p ps ih =>
    cases args with
    | nil =>
      simp only [bindLoop, List.zip_nil_right]
      split <;> simp [ih]
    | cons a as => simp [bindLoop, ih]

/-- The tokens still in `args` after the loop are the tokens past the
parameter count. -/
theorem bindLoop_rest (ps : List Param) (args : List String) :
    (bindLoop ps args).2.1 = args.drop ps.length := by
  induction ps generalizing args with
  | nil => simp [bindLoop]
  | cons p ps ih =>
    cases args with
    | nil =>
      simp only [bindLoop, List.drop_nil]
      split <;> simp [ih]
    | cons a as => simp [bindLoop, ih]

/-- The parameters still in `params` after the loop are exactly the
declared parameters beyond the token count that have no default. -/
theorem bindLoop_unbound (ps : List Param) (args : List String) :
    (bindLoop ps args).2.2 = (ps.drop args.length).filter (fun p => p.default.isNone) := by
  induction ps generalizing args with
  | nil => simp [bindLoop]
  | cons p ps ih =>
    cases args with
    | nil =>
      simp only [bindLoop, List.drop_nil, List.drop_zero, List.filter_cons]
      rcases h : p.default with _ | d <;> simp [h, ih, Option.isNone]
    | cons a as => simp [bindLoop, ih]

/-- Second components of a zip: the first `l₁.length` entries of `l₂`. -/
theorem zip_map_snd {α β : Type} (l₁ : List α) (l₂ : List β) :
    (List.zip l₁ l₂).map Prod.snd = l₂.take l₁.length := by
  induction l₁ generalizing l₂ with
  | nil => simp
  | cons x xs ih =>
    cases l₂ with
    | nil => simp
    | cons y ys => simp [ih]

/-- First components of a zip: the first `l₂.length` entries of `l₁`. -/
theorem zip_map_fst {α β : Type} (l₁ : List α) (l₂ : List β) :
    (List.zip l₁ l₂).map Prod.fst = l₁.take l₂.length := by
  induction l₁ generalizing l₂ with
  | nil => simp
  | cons x xs ih =>
    cases l₂ with
    | nil => simp
    | cons y ys => simp [ih]

/-- C3: in every dispatch, the binding loop consumes the ordered argument
token list strictly left to right: the bound pairs are the positional zip
of the declared parameter names with the tokens (the i-th declared
positional parameter receives the i-th token, so each positional
parameter receives the next unconsumed token and no token is bound to two
different parameters); the token values bound, in parameter order, are
exactly the first `min` tokens in their original order (each consumed at
most once); and the tokens left over are exactly the ones past the
parameter count. -/
theorem command_args_consumed_left_to_right (ps : List Param) (args : List String) :
    (bindLoop ps args).1 = List.zip (ps.map Param.name) args ∧
    ((bindLoop ps args).1).map Prod.snd = args.take ps.length ∧
    ((bindLoop ps args).1).map Prod.fst = (ps.map Param.name).take args.length ∧
    (bindLoop ps args).2.1 = args.drop ps.length := by
  refine ⟨bindLoop_bound ps args, ?_, ?_, bindLoop_rest ps args⟩
  · rw [bindLoop_bound, zip_map_snd, List.length_map]
  · rw [bindLoop_bound, zip_map_fst]



/-! ## Concrete fixtures for witness and counterexample theorems -/

/-- A concrete configuration: prefix `!`, owner `owner1`, no channel
binding, delete-messages on, delete-invoking off. -/
def cfgW : Config :=
  { command_prefix := "!", owner_id := "owner1", bound_channels := []
    delete_messages := true, delete_invoking := false, debug_mode := false }

/-- The introspected signature of `cmd_setname` (bot.py line 778):
`(leftover_args, name)`, both without defaults. -/
def sigSetname : HandlerSig :=
  { params := [{ name := "leftover_args", default := none },
               { name := "name", default := none }] }

/-- A permission group whose whitelist is `{roll}`. -/
def permsOnlyRoll : UserPermissions :=
  { name := "testers", command_whitelist := ["roll"], command_blacklist := [] }

/-- A permission group with no whitelist and blacklist `{setname}`. -/
def permsNoSetname : UserPermissions :=
  { name := "testers", command_whitelist := [], command_blacklist := ["setname"] }

/-! ## Claim theorems -/

/-- C1: for every command dispatch that reaches parameter binding (the
message is not in a private channel, where dispatch stops earlier) whose
author is not the configured owner, a non-empty whitelist not containing
the invoked keyword makes dispatch raise the permissions failure whose
message is the whitelist-violation text naming the group, and — the
whitelist passing — a non-empty blacklist containing the keyword makes it
raise the blacklist-violation text naming the group.  Both conclusions
hold for every argument token list, including ones that leave required
parameters unbound, showing the checks fire after binding and before both
the usage fallback and the handler invocation (the outcome is never
`Outcome.invoked`). -/
theorem permission_gate_blocks_non_owner (cfg : Config) (perms : UserPermissions)
    (sig : HandlerSig) (doc : Option String) (command : String) (args : List String)
    (author_id : String) (hown : author_id ≠ cfg.owner_id) :
    (perms.command_whitelist ≠ [] → command ∉ perms.command_whitelist →
      dispatchResolved cfg perms sig doc command args author_id false =
        .permissionsError ("This command is not enabled for your group (" ++ perms.name ++ ").") 20) ∧
    ((perms.command_whitelist = [] ∨ command ∈ perms.command_whitelist) →
      perms.command_blacklist ≠ [] → command ∈ perms.command_blacklist →
      dispatchResolved cfg perms sig doc command args author_id false =
        .permissionsError ("This command is disabled for your group (" ++ perms.name ++ ").") 20) := by
  constructor
  · intro h1 h2
    simp [dispatchResolved, hown, h1, h2]
  · intro hwl h1 h2
    rcases hwl with hwl | hwl <;>
      simp [dispatchResolved, hown, h1, h2, hwl]

/-- Witness for `permission_gate_blocks_non_owner`: a non-owner invoking
`setname` is blocked by the whitelist `{roll}`, and, with no whitelist,
by the blacklist `{setname}`. -/
theorem permission_gate_blocks_non_owner_witness :
    (dispatchResolved cfgW permsOnlyRoll sigSetname (cmdDoc "cmd_setname") "setname" ["x"] "user2" false =
      .permissionsError "This command is not enabled for your group (testers)." 20) ∧
    (dispatchResolved cfgW permsNoSetname sigSetname (cmdDoc "cmd_setname") "setname" ["x"] "user2" false =
      .permissionsError "This command is disabled for your group (testers)." 20) :=
  ⟨(permission_gate_blocks_non_owner cfgW permsOnlyRoll sigSetname (cmdDoc "cmd_setname")
      "setname" ["x"] "user2" (by decide)).1 (by decide) (by decide),
   (permission_gate_blocks_non_owner cfgW permsNoSetname sigSetname (cmdDoc "cmd_setname")
      "setname" ["x"] "user2" (by decide)).2 (Or.inl rfl) (by decide) (by decide)⟩

/-- C2 counterexample: the claim says a dispatch with a missing required
parameter always yields the usage block instead of an invocation, but the
permission gate runs first: a non-owner author whose group blacklists
`setname` invoking `setname` with no tokens (its required `name`
parameter stays unbound) gets the blacklist permissions failure, not the
usage block. -/
theorem missing_required_arg_counterexample :
    (bindLoop (HandlerSig.userParams sigSetname) []).2.2 ≠ [] ∧
    dispatchResolved cfgW permsNoSetname sigSetname (cmdDoc "cmd_setname") "setname" [] "user2" false =
      .permissionsError "This command is disabled for your group (testers)." 20 := by
  exact ⟨by decide, by decide⟩

/-- C2 (amended): for dispatches that reach parameter binding (non-private
channel) and pass the permission gate (owner author, or a whitelist and
blacklist that do not reject the keyword), if after binding some declared
positional parameter remains unbound and has no declared default (there
are fewer tokens than parameters and a defaultless parameter lies past
the tokens), the handler is not invoked; dispatch instead sends the
handler usage documentation — its docstring (or, absent one, a generated
usage line) with every line stripped and the command-prefix placeholder
substituted — as a code block with `expire_in=60`. -/
theorem missing_required_arg_sends_usage (cfg : Config) (perms : UserPermissions)
    (sig : HandlerSig) (doc : Option String) (command : String) (args : List String)
    (author_id : String)
    (hperm : author_id = cfg.owner_id ∨
      ((perms.command_whitelist = [] ∨ command ∈ perms.command_whitelist) ∧
       (perms.command_blacklist = [] ∨ command ∉ perms.command_blacklist)))
    (hmissing : (sig.userParams.drop args.length).any (fun p => p.default.isNone) = true) :
    dispatchResolved cfg perms sig doc command args author_id false =
      .usageMessage ("```\n" ++ formatUsage
        (doc.getD (fallbackDocs (Config.command_prefix cfg) command (sig.userParams.map docKey)))
        (Config.command_prefix cfg) ++ "\n```") 60 := by
  have hun : (bindLoop sig.userParams args).2.2 ≠ [] := by
    rw [bindLoop_unbound]
    obtain ⟨p, hp, hnone⟩ := List.any_eq_true.mp hmissing
    intro hnil
    rw [List.filter_eq_nil_iff] at hnil
    exact hnil p hp (by simp [hnone])
  rcases hperm with hperm | ⟨hwl, hbl⟩
  · simp [dispatchResolved, hperm, hun]
  · rcases hwl with hwl | hwl <;> rcases hbl with hbl | hbl <;>
      simp [dispatchResolved, hwl, hbl, hun]

/-- Witness for `missing_required_arg_sends_usage`: the owner invoking
`setname` with no tokens gets the setname usage block. -/
theorem missing_required_arg_sends_usage_witness :
    dispatchResolved cfgW permsOnlyRoll sigSetname (cmdDoc "cmd_setname") "setname" [] "owner1" false =
      .usageMessage ("```\n" ++ formatUsage
        ((cmdDoc "cmd_setname").getD (fallbackDocs (Config.command_prefix cfgW) "setname" (HandlerSig.userParams sigSetname |>.map docKey)))
        (Config.command_prefix cfgW) ++ "\n```") 60 :=
  missing_required_arg_sends_usage cfgW permsOnlyRoll sigSetname (cmdDoc "cmd_setname")
    "setname" [] "owner1" (Or.inl rfl) (by decide)

/-- C9: whenever dispatch reaches the handler invocation and the handler
declares `leftover_args`, the bound `leftover_args` value is the token
list as it stands after the positional-binding loop — `args` with the
first `userParams.length` tokens popped — because the source binds the
same mutable list object that the loop pops from, not a copy of the
pre-binding token list. -/
theorem leftover_args_sees_post_binding_tokens (cfg : Config) (perms : UserPermissions)
    (sig : HandlerSig) (doc : Option String) (command : String) (args : List String)
    (author_id : String) (kw : Kwargs)
    (hlef : sig.hasLeftover = true)
    (hdisp : dispatchResolved cfg perms sig doc command args author_id false = .invoked kw) :
    kw.leftover = some (args.drop sig.userParams.length) := by
  simp only [dispatchResolved] at hdisp
  split at hdisp
  · exact absurd hdisp (by simp)
  · split at hdisp
    · exact absurd hdisp (by simp)
    · split at hdisp
      · exact absurd hdisp (by simp)
      · split at hdisp
        · exact absurd hdisp (by simp)
        · rw [Outcome.invoked.injEq] at hdisp
          rw [← hdisp]
          simp [hlef, bindLoop_rest]

/-- Witness for `leftover_args_sees_post_binding_tokens`: `setname` with
tokens `["Foo", "Bar"]` binds `name := "Foo"` and `leftover_args` sees
only `["Bar"]`, not the full token list. -/
theorem leftover_args_sees_post_binding_tokens_witness :
    ({ pos := [("name", "Foo")], leftover := some ["Bar"] } : Kwargs).leftover =
      some (["Foo", "Bar"].drop (HandlerSig.userParams sigSetname).length) :=
  leftover_args_sees_post_binding_tokens cfgW permsOnlyRoll sigSetname (cmdDoc "cmd_setname")
    "setname" ["Foo", "Bar"] "owner1" _ (by decide) (by decide)



/-- A bot identity for the precondition fixtures: user id `B`, prefix `!`,
bound to channel `c1`. -/
def botW : BotCtx :=
  { config := { command_prefix := "!", owner_id := "owner1", bound_channels := ["c1"]
                delete_messages := true, delete_invoking := false, debug_mode := false }
    user_id := "B" }

/-- A message authored by the bot itself (as a non-bot-flagged account,
which the source supports) that does not start with the prefix and
mentions the Cleverbot identity. -/
def msgSelfChat : MessageIn :=
  { author_id := "B", author_bot := false, content := "<@193778484869332993> hi"
    channel_id := "c1", channel_is_private := false }

/-- A prefixed command message arriving in a private channel that is not
in the bound-channel set. -/
def msgPrivateHelp : MessageIn :=
  { author_id := "U", author_bot := false, content := "!help"
    channel_id := "dm", channel_is_private := true }

/-- C4 counterexample: the claim's precondition order is violated twice.
A message authored by the bot itself (running as a user account) that
does not start with the prefix is routed to the non-command path and gets
a Cleverbot reply — the author-is-self check does not come first and the
exit is not reply-free.  And a prefixed message in a private channel that
is not in the configured bound set still proceeds to dispatch — the
channel-binding check exempts private channels. -/
theorem on_message_precondition_counterexample :
    msgSelfChat.author_id = botW.user_id ∧
    preDispatch botW msgSelfChat = .nonCommand true ∧
    botW.config.bound_channels ≠ [] ∧
    msgPrivateHelp.channel_id ∉ botW.config.bound_channels ∧
    preDispatch botW msgPrivateHelp = .proceed "help" [] := by
  refine ⟨rfl, by decide, by decide, by decide, by decide⟩

/-- C4 (amended): the precondition filters of `on_message` run in this
order, each a short-circuit exit: (1) the author is flagged as a bot
account — any bot, not only this one — exiting silently; (2) the trimmed
text does not start with the command prefix, routing to the non-command
path, which replies exactly when the text contains the fixed Cleverbot
mention; (3) the author is the bot itself, exiting with a log line; (4) a
channel binding is configured, the channel is not in the bound set and
the channel is not private, exiting silently; otherwise dispatch proceeds
with the extracted keyword and tokens. -/
theorem on_message_precondition_order (bot : BotCtx) (m : MessageIn) :
    (m.author_bot = true → preDispatch bot m = .ignoredBotAuthor) ∧
    (m.author_bot = false →
      pyStartsWith (pyStrip m.content) (Config.command_prefix bot.config) = false →
      preDispatch bot m = .nonCommand (pyContains (pyStrip m.content) cleverbotMention)) ∧
    (m.author_bot = false →
      pyStartsWith (pyStrip m.content) (Config.command_prefix bot.config) = true →
      m.author_id = bot.user_id →
      preDispatch bot m = .ignoredSelf) ∧
    (m.author_bot = false →
      pyStartsWith (pyStrip m.content) (Config.command_prefix bot.config) = true →
      m.author_id ≠ bot.user_id →
      bot.config.bound_channels ≠ [] →
      m.channel_id ∉ bot.config.bound_channels →
      m.channel_is_private = false →
      preDispatch bot m = .notBoundChannel) ∧
    (m.author_bot = false →
      pyStartsWith (pyStrip m.content) (Config.command_prefix bot.config) = true →
      m.author_id ≠ bot.user_id →
      ¬ (bot.config.bound_channels ≠ [] ∧ m.channel_id ∉ bot.config.bound_channels ∧
         ¬ m.channel_is_private) →
      preDispatch bot m =
        .proceed (pyStrip (pyLower (pyDrop ((pySplit (pyStrip m.content)).headD "")
            (Config.command_prefix bot.config).length)))
          (pySplit (pyStrip m.content)).tail) := by
  refine ⟨?_, ?_, ?_, ?_, ?_⟩
  · intro h1
    simp [preDispatch, h1]
  · intro h1 h2
    simp [preDispatch, h1, h2]
  · intro h1 h2 h3
    simp [preDispatch, h1, h2, h3]
  · intro h1 h2 h3 h4 h5 h6
    simp [preDispatch, h1, h2, h3, h4, h5, h6]
  · intro h1 h2 h3 h4
    simp [preDispatch, h1, h2, h3]
    intro ha hb
    by_contra hc
    exact h4 ⟨ha, hb, by simpa using hc⟩

/-- Witness for `on_message_precondition_order`: a bot-authored message is
ignored, and a bound-channel command by a stranger proceeds. -/
theorem on_message_precondition_order_witness :
    preDispatch botW { author_id := "U", author_bot := true, content := "!roll 20"
                       channel_id := "c1", channel_is_private := false } = .ignoredBotAuthor ∧
    preDispatch botW { author_id := "U", author_bot := false, content := "!roll 20"
                       channel_id := "c1", channel_is_private := false } = .proceed "roll" ["20"] := by
  constructor
  · exact (on_message_precondition_order botW _).1 rfl
  · exact (on_message_precondition_order botW
      { author_id := "U", author_bot := false, content := "!roll 20"
        channel_id := "c1", channel_is_private := false }).2.2.2.2 rfl (by decide) (by decide) (by decide)


/-- A configuration with the delete-messages setting off and the
delete-invoking setting on. -/
def cfgOff : Config :=
  { command_prefix := "!", owner_id := "owner1", bound_channels := []
    delete_messages := false, delete_invoking := true, debug_mode := false }

/-- A handler reply with a 20-unit delete delay. -/
def respW : Response := { content := "hi", reply := false, delete_after := 20 }

/-- C5: with any faithful `random.randint` oracle, `cmd_roll` given `0`
answers in the 1-6 range with the correction notice; given `2000` answers
in the 1-1000 range with the correction notice; given the non-numeric
`abc` answers with the 1-6 fallback; and given `20` answers in the 1-20
range with the plain no-notice message. -/
theorem roll_ranges_and_notices (rng : Int → Int → Int)
    (hrng : ∀ a b : Int, a ≤ b → a ≤ rng a b ∧ rng a b ≤ b) :
    (∃ n : Int, 1 ≤ n ∧ n ≤ 6 ∧ cmd_roll "0" rng =
      { content := "I don't know what you wanted to roll. I rolled a 6-sided die instead\nI rolled a **" ++ toString n ++ "**"
        reply := false, delete_after := 20 }) ∧
    (∃ n : Int, 1 ≤ n ∧ n ≤ 1000 ∧ cmd_roll "2000" rng =
      { content := "Too many sides. I rolled a 1000-sided die instead\nI rolled a **" ++ toString n ++ "**"
        reply := false, delete_after := 20 }) ∧
    (∃ n : Int, 1 ≤ n ∧ n ≤ 6 ∧ cmd_roll "abc" rng =
      { content := "I don't know what you wanted to roll. I rolled a 6-sided die instead\nI rolled a **" ++ toString n ++ "**"
        reply := false, delete_after := 20 }) ∧
    (∃ n : Int, 1 ≤ n ∧ n ≤ 20 ∧ cmd_roll "20" rng =
      { content := "I rolled a **" ++ toString n ++ "**"
        reply := false, delete_after := 20 }) := by
  refine ⟨⟨rng 1 6, (hrng 1 6 (by norm_num)).1, (hrng 1 6 (by norm_num)).2, rfl⟩,
          ⟨rng 1 1000, (hrng 1 1000 (by norm_num)).1, (hrng 1 1000 (by norm_num)).2, rfl⟩,
          ⟨rng 1 6, (hrng 1 6 (by norm_num)).1, (hrng 1 6 (by norm_num)).2, rfl⟩,
          ⟨rng 1 20, (hrng 1 20 (by norm_num)).1, (hrng 1 20 (by norm_num)).2, rfl⟩⟩

/-- Witness for `roll_ranges_and_notices` at the lower-bound oracle. -/
theorem roll_ranges_and_notices_witness :
    (∃ n : Int, 1 ≤ n ∧ n ≤ 6 ∧ cmd_roll "0" (fun a _ => a) =
      { content := "I don't know what you wanted to roll. I rolled a 6-sided die instead\nI rolled a **" ++ toString n ++ "**"
        reply := false, delete_after := 20 }) ∧
    (∃ n : Int, 1 ≤ n ∧ n ≤ 1000 ∧ cmd_roll "2000" (fun a _ => a) =
      { content := "Too many sides. I rolled a 1000-sided die instead\nI rolled a **" ++ toString n ++ "**"
        reply := false, delete_after := 20 }) ∧
    (∃ n : Int, 1 ≤ n ∧ n ≤ 6 ∧ cmd_roll "abc" (fun a _ => a) =
      { content := "I don't know what you wanted to roll. I rolled a 6-sided die instead\nI rolled a **" ++ toString n ++ "**"
        reply := false, delete_after := 20 }) ∧
    (∃ n : Int, 1 ≤ n ∧ n ≤ 20 ∧ cmd_roll "20" (fun a _ => a) =
      { content := "I rolled a **" ++ toString n ++ "**"
        reply := false, delete_after := 20 }) :=
  roll_ranges_and_notices (fun a _ => a) (fun a _ h => ⟨le_refl a, h⟩)

/-- C6: when the global delete-messages setting is on, a successfully
sent reply whose `Response` carries a nonzero delete delay is scheduled
for deletion after exactly that delay; when the setting is off, no
deletion of the sent reply message is ever scheduled (the reply is a
fresh message, distinct from the invoking one). -/
theorem reply_autodelete_schedule (cfg : Config) (invoking m : MsgRef)
    (mention : String) (resp : Response) :
    (cfg.delete_messages = true → resp.delete_after ≠ 0 →
      (m, resp.delete_after) ∈ (sendResponse cfg invoking mention resp (.ok m)).2.2) ∧
    (cfg.delete_messages = false → m ≠ invoking →
      ∀ d, (m, d) ∉ (sendResponse cfg invoking mention resp (.ok m)).2.2) := by
  constructor
  · intro h1 h2
    simp [sendResponse, safe_send_message, h1, h2]
  · intro h1 h2 d
    cases hdi : cfg.delete_invoking <;>
      simp [sendResponse, safe_send_message, h1, hdi, h2, Prod.ext_iff]

/-- Witness for `reply_autodelete_schedule`: with deletes on, the reply
(delay 20) is scheduled; with deletes off, it never is. -/
theorem reply_autodelete_schedule_witness :
    ((⟨2⟩, 20) ∈ (sendResponse cfgW ⟨1⟩ "@u" respW (.ok ⟨2⟩)).2.2) ∧
    ((⟨2⟩, 20) ∉ (sendResponse cfgOff ⟨1⟩ "@u" respW (.ok ⟨2⟩)).2.2) :=
  ⟨(reply_autodelete_schedule cfgW ⟨1⟩ ⟨2⟩ "@u" respW).1 rfl (by decide),
   (reply_autodelete_schedule cfgOff ⟨1⟩ ⟨2⟩ "@u" respW).2 rfl (by decide) 20⟩

/-- C7: evaluation of the four numeric-argument handlers on the malformed
token `abc`.  `cmd_roll`, `cmd_timer` and `cmd_clean` return their
handler-local fallback replies, but `cmd_xkcd` raises an uncaught
`ValueError` out of the handler: the guard `int(query) <= 0 or
int(query) >= 1663` runs before the dead `not query.isdigit()` branch
that was meant to answer "You have to put a number!". -/
theorem malformed_numeric_argument_results :
    cmd_xkcd "abc" 5 = .error "ValueError" ∧
    cmd_roll "abc" (fun a _ => a) =
      { content := "I don't know what you wanted to roll. I rolled a 6-sided die instead\nI rolled a **1**"
        reply := false, delete_after := 20 } ∧
    cmd_timer "!" "abc" = .badFormat
      { content := "That's not what I expected. The format is `!timer [seconds] [optional reminder message].`"
        reply := false, delete_after := 20 } ∧
    cmd_clean_range "abc" = .error
      { content := "enter a number.  NUMBER.  That means digits.  `15`.  Etc."
        reply := true, delete_after := 8 } :=
  ⟨rfl, rfl, rfl, rfl⟩

/-- C8 counterexample: `help` is a registered command keyword
(`cmd_help` follows the naming convention), yet the no-argument help
enumeration omits it; and `restart` is a registered command whose help
lookup raises (`dedent(None)`) instead of returning a usage block. -/
theorem help_enumeration_counterexample :
    "cmd_help" ∈ commandAtts ∧
    "!help" ∉ helpCommands "!" ∧
    cmd_help "!" (some "restart") = .error "AttributeError" := by
  refine ⟨by decide, by decide, rfl⟩

/-- C8 (amended): the no-argument help reply enumerates every registered
command keyword except `help` itself, prefix-qualified, in attribute
order; and for every registered command that has a docstring, help with
that keyword returns the dedented docstring as a code block
(`delete_after=60`; the command-prefix placeholder is left verbatim,
since the `format` keyword argument is unused in the source). -/
theorem help_command_behaviour ( command_prefix : String) :
    (helpCommands command_prefix =
      ["8ball", "cat", "choice", "clean", "coinflip", "dot", "game", "honk",
       "kiyu", "listids", "penguin", "perms", "restart", "roll", "say",
       "setavatar", "setname", "setnick", "shutdown", "timer", "tsun",
       "urban", "xkcd"].map (fun c => command_prefix ++ c)) ∧
    (cmd_help command_prefix none = .ok
      { content := "my commands are\n```" ++ joinWith ", " (helpCommands command_prefix) ++ "\n\n@me to talk to me!```"
        reply := true, delete_after := 60 }) ∧
    (∀ c d, ("cmd_" ++ c) ∈ commandAtts → cmdDoc ("cmd_" ++ c) = some d →
      cmd_help command_prefix (some c) = .ok
        { content := "```\n" ++ dedent d ++ "```", reply := false, delete_after := 60 }) := by
  refine ⟨rfl, rfl, ?_⟩
  intro c d hmem hdoc
  have hne : c.toList ≠ [] := by
    intro hnil
    have hc : c = "" := by
      cases c with
      | mk data =>
        simp only [String.toList] at hnil
        simp [hnil]
    subst hc
    exact absurd (show ("cmd_" : String) ∈ commandAtts from hmem) (by decide)
  have hemp : c.toList.isEmpty = false := by
    cases h : c.toList with
    | nil => exact absurd h hne
    | cons a as => rfl
  simp [cmd_help, pyTruthyStr, hemp, hmem, hdoc]
  exact hne

/-- Witness for `help_command_behaviour`: help on `roll` returns the
dedented roll usage block. -/
theorem help_command_behaviour_witness :
    cmd_help "!" (some "roll") = .ok
      { content := "```\n" ++ dedent "\n        Usage:\n            {command_prefix}roll #\n\n        Makes Ainnie-Bot roll a #-sided die (defaults to 6 if no number given)\n        " ++ "```"
        reply := false, delete_after := 60 } :=
  (help_command_behaviour "!").2.2 "roll"
    "\n        Usage:\n            {command_prefix}roll #\n\n        Makes Ainnie-Bot roll a #-sided die (defaults to 6 if no number given)\n        "
    (by decide) rfl

/-- C10: when the delete-invoking setting is on and the delete-messages
setting is off, a successful reply send still schedules the invoking
message for deletion — with a zero delay — because the `also_delete`
scheduling in `safe_send_message` is not guarded by `expire_in` being
nonzero; indeed the zero-delay deletion of the invoking message is then
the only scheduled deletion. -/
theorem invoking_message_deleted_despite_setting (cfg : Config) (invoking m : MsgRef)
    (mention : String) (resp : Response)
    (h1 : cfg.delete_invoking = true) (h2 : cfg.delete_messages = false) :
    (sendResponse cfg invoking mention resp (.ok m)).2.2 = [(invoking, 0)] := by
  simp [sendResponse, safe_send_message, h1, h2]

/-- Witness for `invoking_message_deleted_despite_setting`. -/
theorem invoking_message_deleted_despite_setting_witness :
    (sendResponse cfgOff ⟨1⟩ "@u" respW (.ok ⟨2⟩)).2.2 = [(⟨1⟩, 0)] :=
  invoking_message_deleted_despite_setting cfgOff ⟨1⟩ ⟨2⟩ "@u" respW rfl rfl

end KiyukiiBot
